import Mathlib

/-!
Verification of the Netflix-CSV proof-of-contribution engine.

Shallow embedding of:
  - my_proof/schemas/netflix_columns.py  (reference column sets, threshold)
  - my_proof/utils/bloom_filter.py       (BloomFilter, hash_csv_row, detect_new_rows)
  - my_proof/proof.py                    (Proof.generate : the whole run)

Conventions:
  - Python floats are modelled over ℚ (for the scoring pipeline, which is
    exact decimal arithmetic at these magnitudes) and over ℝ (for the
    Bloom-filter sizing, which uses `math.log`).
  - `hashlib.sha256(...).hexdigest()` and `int(hex, 16)` are Python standard
    library functions external to the repository; they are modelled as
    abstract function parameters (`sha256hex`, `hexVal`).  All theorems hold
    for every choice of these functions.
  - `pandas.to_datetime` parsing is likewise abstracted as a
    `parseDate : String → Option Int` parameter plus a cut-off value.
-/

namespace FlixProof

/-- Python `int()` applied to a real value: truncation toward zero. -/

noncomputable def pyInt (x : ℝ) : ℤ := if 0 ≤ x then ⌊x⌋ else ⌈x⌉

/-- Python `round(q)` at integer precision: round half to even (banker rounding). -/

def pyRoundQ (q : ℚ) : ℤ :=
  if q - ⌊q⌋ = 1/2 then (if 2 ∣ ⌊q⌋ then ⌊q⌋ else ⌊q⌋ + 1) else round q

/-- Python `round(q, 3)`. -/

def round3 (q : ℚ) : ℚ := (pyRoundQ (q * 1000) : ℚ) / 1000

/-- Truthiness of an optional string setting (Python: `None` and `""` are falsy). -/

def pyTruthyStr : Option String → Bool
  | none => false
  | some s => s != ""

/-- `str.lower()` (per-character case folding, as applies to these ASCII
column names). -/

def pyLower (s : String) : String := String.mk (s.data.map Char.toLower)

/-- `str.strip()`: drop whitespace from both ends. -/

def pyStrip (s : String) : String :=
  String.mk (((s.data.dropWhile Char.isWhitespace).reverse.dropWhile
    Char.isWhitespace).reverse)

/-- `str.startswith(pre)`. -/

def pyStartsWith (s pre : String) : Bool := pre.data.isPrefixOf s.data

/-! ## Schema classification (netflix_columns.py and proof.py lines 118-124, 178) -/

def VIEWING_REQUIRED : Finset String :=
  {"duration", "start time", "profile name", "title"}

def BILLING_REQUIRED : Finset String :=
  {"transaction date", "gross sale amt", "currency"}

def REQUIRED_THRESHOLD : ℚ := 1/2

def PROOF_THRESHOLD : ℚ := 1/2

/-- A parsed CSV table: ordered column names and rows of optional cells
(`none` models a pandas missing value / NaN). -/

structure Table where
  columns : List String
  rows : List (List (Option String))
deriving DecidableEq

/-- `header = {c.strip().lower() for c in df.columns}` (proof.py line 118). -/

def headerSet (t : Table) : Finset String :=
  (t.columns.map fun c => pyLower (pyStrip c)).toFinset

/-- `is_view = len(header & VIEWING_REQUIRED) >= len(VIEWING_REQUIRED) * REQUIRED_THRESHOLD`
(proof.py line 120). -/

def is_view (header : Finset String) : Bool :=
  decide ((VIEWING_REQUIRED.card : ℚ) * REQUIRED_THRESHOLD ≤ ((header ∩ VIEWING_REQUIRED).card : ℚ))

/-- `is_bill = len(header & BILLING_REQUIRED) >= len(BILLING_REQUIRED) * REQUIRED_THRESHOLD`
(proof.py line 121). -/

def is_bill (header : Finset String) : Bool :=
  decide ((BILLING_REQUIRED.card : ℚ) * REQUIRED_THRESHOLD ≤ ((header ∩ BILLING_REQUIRED).card : ℚ))

inductive FileClass where
  | viewing
  | billing
  | unrecognized
deriving DecidableEq

/-- The classification implemented by proof.py: the gate at lines 122-124
(`not (is_view or is_bill)` → unrecognised) combined with the tie-break at
line 178 (`file_type = viewing if is_view else billing`). -/

def classify (header : Finset String) : FileClass :=
  if is_view header then FileClass.viewing
  else if is_bill header then FileClass.billing
  else FileClass.unrecognized

/-! ## Bloom filter (bloom_filter.py) -/

/-- `BloomFilter._calculate_size`: `int(-n * math.log(p) / (math.log(2) ** 2))`. -/

noncomputable def calculate_size (n : ℕ) (p : ℝ) : ℤ :=
  pyInt (-(n : ℝ) * Real.log p / Real.log 2 ^ 2)

/-- `BloomFilter._calculate_num_hashes`: `int(m / n * math.log(2))`. -/

noncomputable def calculate_num_hashes (m : ℤ) (n : ℕ) : ℤ :=
  pyInt ((m : ℝ) / (n : ℝ) * Real.log 2)

/-- The bit array `[0] * size` is modelled as a function from positions to
bits; positions are always reduced modulo `size`, so indices outside
`[0, size)` are never touched. -/

structure BloomFilter where
  size : ℕ
  num_hashes : ℕ
  bit_array : ℕ → ℕ
  count : ℕ

/-- `BloomFilter.__init__(expected_elements, false_positive_rate)`. -/

noncomputable def BloomFilter.init (expected_elements : ℕ) (false_positive_rate : ℝ) :
    BloomFilter :=
  let size := (calculate_size expected_elements false_positive_rate).toNat
  let num_hashes := (calculate_num_hashes size expected_elements).toNat
  { size := size, num_hashes := num_hashes, bit_array := fun _ => 0, count := 0 }

/-- `BloomFilter._get_hash_positions`: position `i` is
`int(sha256(f"{item}:{i}").hexdigest(), 16) % size`.  The SHA-256 digest
composed with hex-to-int conversion (both Python standard library) is the
abstract parameter `digest`. -/

def BloomFilter.getHashPositions (digest : String → ℕ) (bf : BloomFilter) (item : String) :
    List ℕ :=
  (List.range bf.num_hashes).map fun i => digest (item ++ ":" ++ toString i) % bf.size

/-- `BloomFilter.add`: reads whether every position is already set, then sets
all positions, increments `count` for a new item, and returns the duplicate
flag together with the updated filter. -/

def BloomFilter.add (digest : String → ℕ) (bf : BloomFilter) (item : String) :
    Bool × BloomFilter :=
  let positions := bf.getHashPositions digest item
  let is_duplicate := positions.all fun pos => bf.bit_array pos == 1
  let new_array := positions.foldl (fun arr pos => Function.update arr pos 1) bf.bit_array
  (is_duplicate,
   { bf with
      bit_array := new_array
      count := if is_duplicate then bf.count else bf.count + 1 })

/-- `BloomFilter.contains`. -/

def BloomFilter.contains (digest : String → ℕ) (bf : BloomFilter) (item : String) : Bool :=
  (bf.getHashPositions digest item).all fun pos => bf.bit_array pos == 1

/-- `hash_csv_row`: SHA-256 hex digest of the row string; the digest function
itself (Python hashlib) is the abstract parameter. -/

def hash_csv_row (sha256hex : String → String) (row_data : String) : String :=
  sha256hex row_data

structure DupStats where
  new_rows : ℕ
  duplicate_rows : ℕ
  total_rows : ℕ
  uniqueness_ratio : ℚ
deriving DecidableEq

/-- The accumulating loop of `detect_new_rows`. -/

def detectLoop (digest : String → ℕ) (hashes : List String) (start : ℕ × ℕ × BloomFilter) :
    ℕ × ℕ × BloomFilter :=
  hashes.foldl
    (fun acc h =>
      let r := acc.2.2.add digest h
      if r.1 then (acc.1, acc.2.1 + 1, r.2) else (acc.1 + 1, acc.2.1, r.2))
    start

/-- `detect_new_rows(hashes, bloom_filter)`. -/

def detect_new_rows (digest : String → ℕ) (hashes : List String) (bf : BloomFilter) :
    DupStats :=
  let r := detectLoop digest hashes (0, 0, bf)
  { new_rows := r.1
    duplicate_rows := r.2.1
    total_rows := hashes.length
    uniqueness_ratio := if hashes.length ≠ 0 then (r.1 : ℚ) / (hashes.length : ℚ) else 0 }

/-! ## Quality scoring (proof.py lines 136-176) -/

/-- `str(val)` for one cell: pandas renders a missing value as the string
form of float NaN. -/

def cellStr : Option String → String
  | some s => s
  | none => "nan"

/-- `",".join(str(val) for val in row.values)` (proof.py line 138). -/

def rowString (r : List (Option String)) : String :=
  String.intercalate (",") (r.map cellStr)

/-- Number of missing cells in column `j`. -/

def colMissCount (t : Table) (j : ℕ) : ℕ :=
  (t.rows.map fun r => r.getD j none).countP Option.isNone

/-- `non_null = 1.0 - df.isna().mean().mean()` with the NaN guard of
proof.py lines 158-161 (a mean over zero rows or zero columns is NaN in
pandas, which the guard maps to 0.0). -/

def nonNullRatio (t : Table) : ℚ :=
  if t.rows.length = 0 ∨ t.columns.length = 0 then 0
  else 1 - (((List.range t.columns.length).map
      fun j => (colMissCount t j : ℚ) / (t.rows.length : ℚ)).sum / (t.columns.length : ℚ))

/-- The cells of the column named `c` (`df[col]`). -/

def colCells (t : Table) (c : String) : List (Option String) :=
  t.rows.map fun r => r.getD (t.columns.indexOf c) none

/-- proof.py lines 165-171: for a viewing-type file, 0.10 when some cell of
the first column whose lower-cased name starts with "start time" parses to a
date on/after the cut (2020-01-01), else 0.0.  `pd.to_datetime(...,
errors="coerce")` yields a datetime64 series for any input, so the dtype
check always passes; per-cell parsing is the abstract `parseDate` and the
cut date the abstract `recentCut`. -/

def recencyBonus (parseDate : String → Option Int) (recentCut : Int) (isV : Bool)
    (t : Table) : ℚ :=
  if isV then
    match t.columns.find? (fun c => pyStartsWith (pyLower c) ("start time")) with
    | some c =>
        if (colCells t c).any (fun cell =>
            match cell with
            | some v =>
                match parseDate v with
                | some d => decide (recentCut ≤ d)
                | none => false
            | none => false)
        then 1/10 else 0
    | none => 0
  else 0

/-- proof.py lines 163-176: the per-file quality metric. -/

def fileQuality (parseDate : String → Option Int) (recentCut : Int) (isV : Bool)
    (t : Table) (uniq : ℚ) (new_rows : ℕ) : ℚ :=
  let non_null := nonNullRatio t
  let volume_bonus := min ((new_rows : ℚ) / 10000) (1/2)
  let recency := recencyBonus parseDate recentCut isV t
  let base_quality := non_null * (6/10)
  let uniqueness_bonus := uniq * (3/10)
  round3 (min (base_quality + volume_bonus + recency + uniqueness_bonus) 1)

/-! ## The proof run (proof.py `Proof.generate`) -/

/-- The per-file statistics dict built at proof.py lines 180-191. -/

structure FileStats where
  rows : ℕ
  new_rows : ℕ
  duplicate_rows : ℕ
  uniqueness_ratio : ℚ
  columns : List String
  bytes : ℕ
  file_type : String
  quality : ℚ
  drive_file_id : String
  hash_mismatch : Bool
deriving DecidableEq

/-- The `attributes` payload set at proof.py lines 225-228. -/

structure Attributes where
  files : List (String × FileStats)
  errors : List String
deriving DecidableEq

/-- Modelled from the spec: the `ProofResponse` record
(my_proof/models/proof_response.py is not among the sources).  Field list
from spec section 3; per section 7 an early abort returns `valid=false` with
an empty or partial attributes payload, so every field except `dlp_id`
defaults to its zero value and `attributes`/`metadata` default to `none`. -/

structure ProofResponse where
  dlp_id : ℕ
  valid : Bool := false
  quality : ℚ := 0
  uniqueness : ℚ := 0
  ownership : ℚ := 0
  score : ℚ := 0
  attributes : Option Attributes := none
  metadata : Option String := none
deriving DecidableEq

/-- The ambient inputs of one `Proof.generate` run: environment variables,
settings, the blockchain collaborator state, and the outcome of the
download → decrypt → `pd.read_csv` pipeline (`fetch`; `Except.error e`
models any exception raised inside the try block, carrying its message). -/

structure RunInput where
  drive_file_id : Option String
  drive_access_token : Option String
  wallet_signature : Option String
  row_hashes_json : String
  owner_address : Option String
  blockchain_available : Bool
  contributor_file_count : ℕ
  fetch : Except String (ℕ × Table)
  dlp_id : ℕ

/-- proof.py lines 90-93: the duplicate-contribution guard. -/

def guardErrors (env : RunInput) : List String :=
  if env.blockchain_available = true ∧ pyTruthyStr env.owner_address = true ∧
      0 < env.contributor_file_count then ["DUPLICATE_CONTRIBUTION"] else []

/-- proof.py lines 127-191: duplicate detection, metrics, and the per-file
stats record for the single Drive file. -/

noncomputable def driveFileStats (sha256hex : String → String) (hexVal : String → ℕ)
    (parseDate : String → Option Int) (recentCut : Int)
    (client_hashes : List String) (fid : String) (nbytes : ℕ) (t : Table) (isV : Bool) :
    FileStats :=
  let server_hashes := t.rows.map fun r => hash_csv_row sha256hex (rowString r)
  let bloom_filter := BloomFilter.init 1000000 (1/100)
  let stats := detect_new_rows (fun str => hexVal (sha256hex str)) server_hashes bloom_filter
  { rows := t.rows.length
    new_rows := stats.new_rows
    duplicate_rows := stats.duplicate_rows
    uniqueness_ratio := round3 stats.uniqueness_ratio
    columns := t.columns
    bytes := nbytes
    file_type := if isV then "netflix-viewing-activity" else "netflix-billing-history"
    quality := fileQuality parseDate recentCut isV t stats.uniqueness_ratio stats.new_rows
    drive_file_id := fid
    hash_mismatch := client_hashes.length != server_hashes.length }

/-- proof.py lines 204-229: `NO_VALID_CSV_FILES` on an empty stats map, the
aggregation, the threshold gate, and the result construction; returns the
response together with the final internal error list. -/

def finalDecision (dlp : ℕ) (ownerTruthy : Bool) (errs0 : List String)
    (file_stats : Option (String × FileStats)) : ProofResponse × List String :=
  let errs1 := if file_stats.isNone then errs0 ++ ["NO_VALID_CSV_FILES"] else errs0
  let quality := match file_stats with
    | some p => p.2.quality
    | none => 0
  let uniqueness : ℚ := 1
  let ownership : ℚ := if ownerTruthy then 1 else 0
  let score := quality * (6/10) + uniqueness * (3/10) + ownership * (1/10)
  let valid0 := errs1.isEmpty
  let valid := if score < PROOF_THRESHOLD then false else valid0
  let errs2 := if score < PROOF_THRESHOLD then errs1 ++ ["SCORE_BELOW_THRESHOLD"] else errs1
  let files := match file_stats with
    | some p => [p]
    | none => []
  ({ dlp_id := dlp
     valid := valid
     quality := quality
     uniqueness := uniqueness
     ownership := ownership
     score := score
     attributes := some { files := files, errors := errs2 }
     metadata := some ("netflix-csv") }, errs2)

/-- proof.py `Proof.generate` (lines 75-233) as a function of the run
inputs.  `sha256hex` and `hexVal` abstract hashlib, `parseJsonList`
abstracts `json.loads` plus the list check of lines 128-133 (any input,
malformed JSON included, yields some list), `parseDate` and `recentCut`
abstract pandas date parsing. -/

noncomputable def generateFull (sha256hex : String → String) (hexVal : String → ℕ)
    (parseJsonList : String → List String) (parseDate : String → Option Int)
    (recentCut : Int) (env : RunInput) : ProofResponse × List String :=
  if ¬(pyTruthyStr env.drive_file_id = true ∧ pyTruthyStr env.drive_access_token = true ∧
        pyTruthyStr env.wallet_signature = true) then
    ({ dlp_id := env.dlp_id, valid := false }, ["MISSING_DRIVE_CREDENTIALS"])
  else
    let errs := guardErrors env
    match env.fetch with
    | Except.error e =>
        ({ dlp_id := env.dlp_id }, errs ++ ["DRIVE_PROCESSING_ERROR: " ++ e])
    | Except.ok (nbytes, t) =>
        if t.rows.length < 1 ∨ t.columns.length < 3 then
          ({ dlp_id := env.dlp_id },
            errs ++ ["CSV_TOO_SMALL: Drive file (rows=" ++ toString t.rows.length ++
              ", cols=" ++ toString t.columns.length ++ ")"])
        else
          if ¬(is_view (headerSet t) = true ∨ is_bill (headerSet t) = true) then
            ({ dlp_id := env.dlp_id }, errs ++ ["UNRECOGNISED_CSV_STRUCTURE"])
          else
            finalDecision env.dlp_id (pyTruthyStr env.owner_address) errs
              (some ("drive_file",
                driveFileStats sha256hex hexVal parseDate recentCut
                  (parseJsonList env.row_hashes_json) (env.drive_file_id.getD (""))
                  nbytes t (is_view (headerSet t))))

/-! ## Bloom sizing: the concrete m and k (C7) -/

/-- The spec's sizing formula, `m = ceil(-n ln p / (ln 2)^2)`, stated for
comparison with the implemented `calculate_size`. -/

noncomputable def specSize (n : ℕ) (p : ℝ) : ℤ :=
  ⌈-(n : ℝ) * Real.log p / Real.log 2 ^ 2⌉

/-- The spec's hash-count formula, `k = round(m/n · ln 2)`, stated for
comparison with the implemented `calculate_num_hashes`. -/

noncomputable def specNumHashes (m : ℤ) (n : ℕ) : ℤ :=
  round ((m : ℝ) / (n : ℝ) * Real.log 2)

/-! ### Concrete sample inputs -/

/-- Concrete stand-in for the SHA-256 hex digest (theorems hold for any). -/

def sha0 : String → String := fun s => s ++ ("h")

/-- Concrete stand-in for hex-to-integer conversion. -/

def hex0 : String → ℕ := fun s => s.length

/-- Concrete stand-in for json list parsing. -/

def pj0 : String → List String := fun _ => []

/-- Concrete stand-in for date parsing. -/

def pdate0 : String → Option Int := fun _ => none

/-- A 3-column, 1-row viewing-activity table. -/

def tableV : Table :=
  { columns := ["Duration", "Start Time", "Profile Name"]
    rows := [[some ("1:00"), some ("2021-01-01"), some ("Alice")]] }

/-- A 3-column, 1-row table recognised by neither reference set. -/

def tableU : Table :=
  { columns := ["aaa", "bbb", "ccc"]
    rows := [[some ("x"), some ("y"), some ("z")]] }

/-- A fully healthy run input carrying the viewing table. -/

def envOk : RunInput :=
  { drive_file_id := some ("fid")
    drive_access_token := some ("tok")
    wallet_signature := some ("sig")
    row_hashes_json := "[]"
    owner_address := some ("0xabc")
    blockchain_available := false
    contributor_file_count := 0
    fetch := Except.ok (100, tableV)
    dlp_id := 7 }

/-- The healthy run with the drive file id unset. -/

def envNoCred : RunInput := { envOk with drive_file_id := none }

/-- The healthy run carrying the unrecognised table. -/

def envU : RunInput := { envOk with fetch := Except.ok (100, tableU) }

/-- Another run carrying the unrecognised table (different byte size). -/

def envU9 : RunInput := { envOk with fetch := Except.ok (50, tableU) }

/-! ### ROW_HASHES_JSON non-influence (C10) -/

/-- Forget the per-file hash_mismatch flag. -/

def eraseMismatch (s : FileStats) : FileStats := { s with hash_mismatch := false }

/-- Forget hash_mismatch throughout an attributes payload. -/

def eraseMismatchAttrs (a : Attributes) : Attributes :=
  { a with files := a.files.map fun p => (p.1, eraseMismatch p.2) }

theorem viewing_card : VIEWING_REQUIRED.card = 4 := by decide

theorem billing_card : BILLING_REQUIRED.card = 3 := by decide

/-- C6: a header set classifies as viewing iff it shares at least 2 of the 4
viewing reference columns, and qualifies as billing iff it shares at least 2
of the 3 billing reference columns (the threshold 1.5 rounds up to 2 because
intersection sizes are integers: 1 match fails, 2 matches qualify); when both
qualify, viewing-activity takes precedence. -/

lemma is_view_iff_card (header : Finset String) :
    is_view header = true ↔ 2 ≤ (header ∩ VIEWING_REQUIRED).card := by
  rw [is_view, decide_eq_true_iff, viewing_card, REQUIRED_THRESHOLD]
  constructor
  · intro h
    have h2 : (2 : ℚ) ≤ ((header ∩ VIEWING_REQUIRED).card : ℚ) := by linarith
    exact_mod_cast h2
  · intro h
    have h2 : (2 : ℚ) ≤ ((header ∩ VIEWING_REQUIRED).card : ℚ) := by exact_mod_cast h
    linarith

lemma is_bill_iff_card (header : Finset String) :
    is_bill header = true ↔ 2 ≤ (header ∩ BILLING_REQUIRED).card := by
  rw [is_bill, decide_eq_true_iff, billing_card, REQUIRED_THRESHOLD]
  constructor
  · intro h
    rcases Nat.lt_or_ge (header ∩ BILLING_REQUIRED).card 2 with h2 | h2
    · exfalso
      have h1 : (header ∩ BILLING_REQUIRED).card ≤ 1 := by omega
      have h1q : ((header ∩ BILLING_REQUIRED).card : ℚ) ≤ 1 := by exact_mod_cast h1
      linarith
    · exact h2
  · intro h
    have h2 : (2 : ℚ) ≤ ((header ∩ BILLING_REQUIRED).card : ℚ) := by exact_mod_cast h
    linarith

theorem classification_threshold (header : Finset String) :
    (is_view header = true ↔ 2 ≤ (header ∩ VIEWING_REQUIRED).card) ∧
    (is_bill header = true ↔ 2 ≤ (header ∩ BILLING_REQUIRED).card) ∧
    (is_view header = true → is_bill header = true → classify header = FileClass.viewing) := by
  refine ⟨is_view_iff_card header, is_bill_iff_card header, ?_⟩
  intro hv _
  simp [classify, hv]

/-! ### Bloom filter lemmas -/

lemma foldl_update_eval (l : List ℕ) (arr : ℕ → ℕ) (p : ℕ) :
    (l.foldl (fun a pos => Function.update a pos 1) arr) p =
      if p ∈ l then 1 else arr p := by
  induction l generalizing arr with
  | nil => simp
  | cons x xs ih =>
    simp only [List.foldl_cons, ih, List.mem_cons]
    by_cases hpx : p = x
    · subst hpx
      by_cases hmem : p ∈ xs <;> simp [hmem, Function.update]
    · by_cases hmem : p ∈ xs <;> simp [hmem, hpx, Function.update]

lemma add_bit_array (digest : String → ℕ) (bf : BloomFilter) (item : String) (p : ℕ) :
    ((bf.add digest item).2.bit_array) p =
      if p ∈ bf.getHashPositions digest item then 1 else bf.bit_array p := by
  simp [BloomFilter.add, foldl_update_eval]

lemma add_dup_iff (digest : String → ℕ) (bf : BloomFilter) (item : String) :
    (bf.add digest item).1 = true ↔
      ∀ p ∈ bf.getHashPositions digest item, bf.bit_array p = 1 := by
  simp [BloomFilter.add, List.all_eq_true]

lemma add_size_eq (digest : String → ℕ) (bf : BloomFilter) (item : String) :
    (bf.add digest item).2.size = bf.size ∧
      (bf.add digest item).2.num_hashes = bf.num_hashes := by
  constructor <;> rfl

lemma getHashPositions_length (digest : String → ℕ) (bf : BloomFilter) (item : String) :
    (bf.getHashPositions digest item).length = bf.num_hashes := by
  simp [BloomFilter.getHashPositions]

/-- C8: on a fresh filter with at least one hash position per item, two
consecutive `add` (test-and-insert) calls on the same non-empty string return
`(false, true)` in that order; in general `add` reports a duplicate exactly
when `contains` held of the pre-call state (every one of the item's bit
positions already set), and it unconditionally sets all the item's positions
while leaving every other position unchanged. -/

theorem test_and_insert_behaviour (digest : String → ℕ) (bf : BloomFilter) (item : String)
    (bf' : BloomFilter) (s : String) (p : ℕ)
    (hitem : item ≠ "") (hfresh : bf.bit_array = fun _ => 0) (hk : 0 < bf.num_hashes) :
    ((bf.add digest item).1 = false ∧
      (((bf.add digest item).2).add digest item).1 = true) ∧
    ((bf'.add digest s).1 = bf'.contains digest s) ∧
    ((bf'.add digest s).2.bit_array p =
      if p ∈ bf'.getHashPositions digest s then 1 else bf'.bit_array p) := by
  refine ⟨⟨?_, ?_⟩, ?_, ?_⟩
  · have hlen : (bf.getHashPositions digest item).length = bf.num_hashes :=
      getHashPositions_length digest bf item
    have hne : bf.getHashPositions digest item ≠ [] := by
      intro hnil
      rw [hnil] at hlen
      simp at hlen
      omega
    obtain ⟨q, hq⟩ := List.exists_mem_of_ne_nil _ hne
    by_contra hfalse
    rw [Bool.not_eq_false] at hfalse
    have hall := (add_dup_iff digest bf item).mp hfalse
    have := hall q hq
    rw [hfresh] at this
    simp at this
  · set bf2 := (bf.add digest item).2 with hbf2
    have hpos : bf2.getHashPositions digest item = bf.getHashPositions digest item := rfl
    rw [add_dup_iff, hpos]
    intro q hq
    have := add_bit_array digest bf item q
    rw [this]
    simp [hq]
  · rfl
  · exact add_bit_array digest bf' s p

/-- Closed witness for `test_and_insert_behaviour` at a concrete digest,
filter, item and position. -/

theorem test_and_insert_behaviour_witness :
    (("ab" : String) ≠ "" ∧
      (BloomFilter.mk 7 2 (fun _ => 0) 0).bit_array = (fun _ => 0) ∧
      0 < (BloomFilter.mk 7 2 (fun _ => 0) 0).num_hashes) ∧
    ((((BloomFilter.mk 7 2 (fun _ => 0) 0).add (fun s => s.length) ("ab")).1 = false ∧
      ((((BloomFilter.mk 7 2 (fun _ => 0) 0).add (fun s => s.length) ("ab")).2).add
          (fun s => s.length) ("ab")).1 = true) ∧
    (((BloomFilter.mk 5 1 (fun _ => 0) 3).add (fun s => s.length) ("x")).1 =
      (BloomFilter.mk 5 1 (fun _ => 0) 3).contains (fun s => s.length) ("x")) ∧
    (((BloomFilter.mk 5 1 (fun _ => 0) 3).add (fun s => s.length) ("x")).2.bit_array 0 =
      if 0 ∈ (BloomFilter.mk 5 1 (fun _ => 0) 3).getHashPositions (fun s => s.length) ("x")
      then 1 else (BloomFilter.mk 5 1 (fun _ => 0) 3).bit_array 0)) :=
  ⟨⟨by decide, rfl, by decide⟩,
    test_and_insert_behaviour (fun s => s.length) (BloomFilter.mk 7 2 (fun _ => 0) 0) ("ab")
      (BloomFilter.mk 5 1 (fun _ => 0) 3) ("x") 0 (by decide) rfl (by decide)⟩

/-! ### Bounds lemmas for the scoring pipeline -/

lemma qsum_nonneg (l : List ℚ) (h : ∀ x ∈ l, 0 ≤ x) : 0 ≤ l.sum := by
  induction l with
  | nil => simp
  | cons a t ih =>
      simp only [List.sum_cons]
      have ha := h a (by simp)
      have ht := ih fun x hx => h x (by simp [hx])
      linarith

lemma qsum_le_length (l : List ℚ) (h : ∀ x ∈ l, x ≤ 1) : l.sum ≤ (l.length : ℚ) := by
  induction l with
  | nil => simp
  | cons a t ih =>
      simp only [List.sum_cons, List.length_cons]
      have ha := h a (by simp)
      have ht := ih fun x hx => h x (by simp [hx])
      push_cast
      linarith

lemma nonNullRatio_bounds (t : Table) : 0 ≤ nonNullRatio t ∧ nonNullRatio t ≤ 1 := by
  unfold nonNullRatio
  split
  · exact ⟨le_refl 0, by norm_num⟩
  · rename_i hguard
    push_neg at hguard
    have hrpos : 0 < t.rows.length := Nat.pos_of_ne_zero hguard.1
    have hcpos : 0 < t.columns.length := Nat.pos_of_ne_zero hguard.2
    have hrq : (0 : ℚ) < (t.rows.length : ℚ) := by exact_mod_cast hrpos
    have hcq : (0 : ℚ) < (t.columns.length : ℚ) := by exact_mod_cast hcpos
    set L := (List.range t.columns.length).map
        (fun j => (colMissCount t j : ℚ) / (t.rows.length : ℚ)) with hL
    have hmem : ∀ x ∈ L, 0 ≤ x ∧ x ≤ 1 := by
      intro x hx
      rw [hL, List.mem_map] at hx
      obtain ⟨j, _, rfl⟩ := hx
      refine ⟨by positivity, ?_⟩
      rw [div_le_one hrq]
      have h1 : colMissCount t j ≤ (t.rows.map fun r => r.getD j none).length :=
        List.countP_le_length _
      have h2 : colMissCount t j ≤ t.rows.length := by simpa using h1
      exact_mod_cast h2
    have hlen : L.length = t.columns.length := by simp [hL]
    have hsum0 : 0 ≤ L.sum := qsum_nonneg L fun x hx => (hmem x hx).1
    have hsum1 : L.sum ≤ (t.columns.length : ℚ) := by
      have := qsum_le_length L fun x hx => (hmem x hx).2
      rwa [hlen] at this
    constructor
    · have hmean : L.sum / (t.columns.length : ℚ) ≤ 1 := by
        rw [div_le_one hcq]
        exact hsum1
      linarith
    · have hmean : 0 ≤ L.sum / (t.columns.length : ℚ) := by positivity
      linarith

lemma pyRoundQ_bounds (q : ℚ) : ⌊q⌋ ≤ pyRoundQ q ∧ pyRoundQ q ≤ ⌈q⌉ := by
  unfold pyRoundQ
  split
  · rename_i htie
    have hlt : (⌊q⌋ : ℚ) < q := by linarith
    have hceil : ⌊q⌋ < ⌈q⌉ := by
      rw [Int.lt_ceil]
      exact hlt
    split
    · exact ⟨le_refl _, by omega⟩
    · exact ⟨by omega, by omega⟩
  · constructor
    · rw [round_eq]
      exact Int.floor_le_floor (by linarith)
    · rw [round_eq]
      by_contra hlt
      push_neg at hlt
      have h1 : ((⌈q⌉ : ℚ) + 1) ≤ q + 1/2 := by
        have h0 : ⌈q⌉ + 1 ≤ ⌊q + 1/2⌋ := by omega
        have := Int.le_floor.mp h0
        push_cast at this
        linarith
      have h2 : q ≤ (⌈q⌉ : ℚ) := Int.le_ceil q
      linarith

lemma round3_bounds (q : ℚ) (h0 : 0 ≤ q) (h1 : q ≤ 1) : 0 ≤ round3 q ∧ round3 q ≤ 1 := by
  obtain ⟨hl, hu⟩ := pyRoundQ_bounds (q * 1000)
  have hfl : (0 : ℤ) ≤ ⌊q * 1000⌋ := Int.floor_nonneg.mpr (by linarith)
  have hcl : ⌈q * 1000⌉ ≤ (1000 : ℤ) := Int.ceil_le.mpr (by push_cast; linarith)
  unfold round3
  constructor
  · have hz : (0 : ℤ) ≤ pyRoundQ (q * 1000) := le_trans hfl hl
    have hq : (0 : ℚ) ≤ (pyRoundQ (q * 1000) : ℚ) := by exact_mod_cast hz
    exact div_nonneg hq (by norm_num)
  · have hz : pyRoundQ (q * 1000) ≤ (1000 : ℤ) := le_trans hu hcl
    have hq : (pyRoundQ (q * 1000) : ℚ) ≤ 1000 := by exact_mod_cast hz
    rw [div_le_one (by norm_num : (0 : ℚ) < 1000)]
    exact hq

lemma detectLoop_sum (digest : String → ℕ) (hashes : List String) :
    ∀ s : ℕ × ℕ × BloomFilter,
      (detectLoop digest hashes s).1 + (detectLoop digest hashes s).2.1 =
        s.1 + s.2.1 + hashes.length := by
  induction hashes with
  | nil =>
      intro s
      simp [detectLoop]
  | cons h t ih =>
      intro s
      simp only [detectLoop, List.foldl_cons] at ih ⊢
      cases hd : (s.2.2.add digest h).1 with
      | true =>
          have hstep := ih (s.1, s.2.1 + 1, (s.2.2.add digest h).2)
          simp only [hd, if_true, List.length_cons] at hstep ⊢
          omega
      | false =>
          have hstep := ih (s.1 + 1, s.2.1, (s.2.2.add digest h).2)
          simp only [hd, Bool.false_eq_true, if_false, List.length_cons] at hstep ⊢
          omega

lemma detect_new_rows_bounds (digest : String → ℕ) (hashes : List String) (bf : BloomFilter) :
    (detect_new_rows digest hashes bf).new_rows ≤
        (detect_new_rows digest hashes bf).total_rows ∧
      0 ≤ (detect_new_rows digest hashes bf).uniqueness_ratio ∧
        (detect_new_rows digest hashes bf).uniqueness_ratio ≤ 1 := by
  have hsum := detectLoop_sum digest hashes (0, 0, bf)
  simp only at hsum
  unfold detect_new_rows
  simp only
  have hle : (detectLoop digest hashes (0, 0, bf)).1 ≤ hashes.length := by omega
  refine ⟨hle, ?_, ?_⟩
  · split
    · positivity
    · exact le_refl 0
  · split
    · rename_i hne
      have hlq : (0 : ℚ) < (hashes.length : ℚ) := by
        exact_mod_cast Nat.pos_of_ne_zero hne
      rw [div_le_one hlq]
      exact_mod_cast hle
    · norm_num

lemma recencyBonus_cases (parseDate : String → Option Int) (recentCut : Int) (isV : Bool)
    (t : Table) : recencyBonus parseDate recentCut isV t = 0 ∨
      recencyBonus parseDate recentCut isV t = 1/10 := by
  unfold recencyBonus
  split
  · split
    · split
      · right; rfl
      · left; rfl
    · left; rfl
  · left; rfl

lemma fileQuality_bounds (parseDate : String → Option Int) (recentCut : Int) (isV : Bool)
    (t : Table) (uniq : ℚ) (new_rows : ℕ) (hu0 : 0 ≤ uniq) :
    0 ≤ fileQuality parseDate recentCut isV t uniq new_rows ∧
      fileQuality parseDate recentCut isV t uniq new_rows ≤ 1 := by
  unfold fileQuality
  have hnn := nonNullRatio_bounds t
  have hvol0 : (0 : ℚ) ≤ min ((new_rows : ℚ) / 10000) (1/2) :=
    le_min (by positivity) (by norm_num)
  have hrb0 : (0 : ℚ) ≤ recencyBonus parseDate recentCut isV t := by
    rcases recencyBonus_cases parseDate recentCut isV t with h | h <;> rw [h] <;> norm_num
  have hbase0 : (0 : ℚ) ≤ nonNullRatio t * (6/10) :=
    mul_nonneg hnn.1 (by norm_num)
  have hub0 : (0 : ℚ) ≤ uniq * (3/10) := mul_nonneg hu0 (by norm_num)
  have hsum0 : 0 ≤ nonNullRatio t * (6/10) + min ((new_rows : ℚ) / 10000) (1/2)
      + recencyBonus parseDate recentCut isV t + uniq * (3/10) := by linarith
  have hmin0 : 0 ≤ min (nonNullRatio t * (6/10) + min ((new_rows : ℚ) / 10000) (1/2)
      + recencyBonus parseDate recentCut isV t + uniq * (3/10)) 1 :=
    le_min hsum0 (by norm_num)
  have hmin1 : min (nonNullRatio t * (6/10) + min ((new_rows : ℚ) / 10000) (1/2)
      + recencyBonus parseDate recentCut isV t + uniq * (3/10)) 1 ≤ 1 :=
    min_le_right _ _
  exact round3_bounds _ hmin0 hmin1

lemma log_five_quarter_bounds :
    (0.2231435512 : ℝ) < Real.log (5/4) ∧ Real.log (5/4) < 0.2231435514 := by
  have h5 : |(1/5 : ℝ)| < 1 := by
    rw [abs_of_pos (by norm_num : (0:ℝ) < 1/5)]
    norm_num
  have hb := Real.abs_log_sub_add_sum_range_le h5 14
  rw [show (1 : ℝ) - 1/5 = 4/5 by norm_num] at hb
  rw [show Real.log (4/5 : ℝ) = -Real.log (5/4) by
    rw [show (4/5 : ℝ) = (5/4)⁻¹ by norm_num, Real.log_inv]] at hb
  rw [abs_of_pos (by norm_num : (0:ℝ) < 1/5)] at hb
  rw [abs_le] at hb
  obtain ⟨hb1, hb2⟩ := hb
  have hS : (∑ i ∈ Finset.range 14, (1/5 : ℝ) ^ (i + 1) / (i + 1)) =
      98159192078393/439892578125000 := by
    simp [Finset.sum_range_succ]
    norm_num
  rw [hS] at hb1 hb2
  norm_num at hb1 hb2
  constructor <;> linarith

lemma log_two_sq_bounds :
    (0.6931471803 : ℝ) ^ 2 < Real.log 2 ^ 2 ∧ Real.log 2 ^ 2 < (0.6931471808 : ℝ) ^ 2 := by
  have h1 := Real.log_two_gt_d9
  have h2 := Real.log_two_lt_d9
  constructor <;> nlinarith

lemma log_hundred_bounds :
    (4.6051701842 : ℝ) < Real.log 100 ∧ Real.log 100 < 4.6051701876 := by
  have heq : Real.log 100 = 6 * Real.log 2 + 2 * Real.log (5/4) := by
    rw [show (100 : ℝ) = 2 ^ 6 * (5/4) ^ 2 by norm_num,
      Real.log_mul (by norm_num) (by norm_num), Real.log_pow, Real.log_pow]
    push_cast
    ring
  have h54 := log_five_quarter_bounds
  have h1 := Real.log_two_gt_d9
  have h2 := Real.log_two_lt_d9
  rw [heq]
  constructor <;> linarith

lemma size_arg_bounds :
    (9585058 : ℝ) < 1000000 * Real.log 100 / Real.log 2 ^ 2 ∧
      1000000 * Real.log 100 / Real.log 2 ^ 2 < 9585059 := by
  have hsq := log_two_sq_bounds
  have h100 := log_hundred_bounds
  have hpos : (0 : ℝ) < Real.log 2 ^ 2 := by nlinarith [Real.log_two_gt_d9]
  constructor
  · rw [lt_div_iff hpos]
    nlinarith [hsq.2, h100.1]
  · rw [div_lt_iff hpos]
    nlinarith [hsq.1, h100.2]

lemma size_arg_cast : -(((1000000 : ℕ)) : ℝ) * Real.log (1/100) / Real.log 2 ^ 2 =
    1000000 * Real.log 100 / Real.log 2 ^ 2 := by
  push_cast
  rw [show (1/100 : ℝ) = (100 : ℝ)⁻¹ by norm_num, Real.log_inv]
  ring

lemma calculate_size_value : calculate_size 1000000 (1/100) = 9585058 := by
  have hb := size_arg_bounds
  unfold calculate_size pyInt
  rw [size_arg_cast, if_pos (by linarith [hb.1] :
    (0 : ℝ) ≤ 1000000 * Real.log 100 / Real.log 2 ^ 2)]
  rw [Int.floor_eq_iff]
  push_cast
  exact ⟨le_of_lt hb.1, by linarith [hb.2]⟩

lemma specSize_value : specSize 1000000 (1/100) = 9585059 := by
  have hb := size_arg_bounds
  unfold specSize
  rw [size_arg_cast, Int.ceil_eq_iff]
  push_cast
  exact ⟨by linarith [hb.1], le_of_lt hb.2⟩

lemma calculate_num_hashes_value : calculate_num_hashes 9585058 1000000 = 6 := by
  have h1 := Real.log_two_gt_d9
  have h2 := Real.log_two_lt_d9
  unfold calculate_num_hashes pyInt
  have harg : (((9585058 : ℤ)) : ℝ) / (((1000000 : ℕ)) : ℝ) * Real.log 2 =
      9585058 / 1000000 * Real.log 2 := by push_cast; ring
  rw [harg, if_pos (by nlinarith : (0 : ℝ) ≤ 9585058 / 1000000 * Real.log 2)]
  rw [Int.floor_eq_iff]
  push_cast
  constructor <;> nlinarith

lemma specNumHashes_value : specNumHashes 9585059 1000000 = 7 := by
  have h1 := Real.log_two_gt_d9
  have h2 := Real.log_two_lt_d9
  unfold specNumHashes
  have harg : (((9585059 : ℤ)) : ℝ) / (((1000000 : ℕ)) : ℝ) * Real.log 2 =
      9585059 / 1000000 * Real.log 2 := by push_cast; ring
  rw [harg, round_eq, Int.floor_eq_iff]
  push_cast
  constructor <;> nlinarith

/-- C7 counterexample: with the default parameters n = 1,000,000 and
p = 0.01, the code's `int()` truncation gives m = 9585058 and k = 6, while
the claimed formulas `m = ceil(-n ln p / (ln 2)^2)` and `k = round(m/n ln 2)`
give m = 9585059 and k = 7; the claim's derivation thus disagrees with the
code at its own default input. -/

theorem bloom_sizing_counterexample :
    calculate_size 1000000 (1/100) = 9585058 ∧
    specSize 1000000 (1/100) = 9585059 ∧
    calculate_size 1000000 (1/100) ≠ specSize 1000000 (1/100) ∧
    calculate_num_hashes 9585058 1000000 = 6 ∧
    specNumHashes (specSize 1000000 (1/100)) 1000000 = 7 ∧
    calculate_num_hashes 9585058 1000000 ≠
      specNumHashes (specSize 1000000 (1/100)) 1000000 := by
  have h1 := calculate_size_value
  have h2 := specSize_value
  have h3 := calculate_num_hashes_value
  have h4 : specNumHashes (specSize 1000000 (1/100)) 1000000 = 7 := by
    rw [h2]
    exact specNumHashes_value
  refine ⟨h1, h2, ?_, h3, h4, ?_⟩
  · rw [h1, h2]
    omega
  · rw [h3, h4]
    omega

/-- C7 amended: m and k are derived from n = 1,000,000 and p = 0.01 by
truncating (Python `int`, floor for these positive values) the expressions
`-n ln p / (ln 2)^2` and `m/n · ln 2`, giving m = 9585058 and k = 6; both
are fixed at construction and preserved by every `add` call for the
instance's lifetime. -/

theorem bloom_sizing_amended (digest : String → ℕ) (bf : BloomFilter) (item : String) :
    (BloomFilter.init 1000000 (1/100)).size = 9585058 ∧
    (BloomFilter.init 1000000 (1/100)).num_hashes = 6 ∧
    (bf.add digest item).2.size = bf.size ∧
    (bf.add digest item).2.num_hashes = bf.num_hashes := by
  refine ⟨?_, ?_, rfl, rfl⟩
  · show (calculate_size 1000000 (1/100)).toNat = 9585058
    rw [calculate_size_value]
    rfl
  · show (calculate_num_hashes (((calculate_size 1000000 (1/100)).toNat : ℕ) : ℤ)
      1000000).toNat = 6
    rw [calculate_size_value]
    rw [show (((9585058 : ℤ).toNat : ℕ) : ℤ) = (9585058 : ℤ) by norm_num]
    rw [calculate_num_hashes_value]
    rfl

/-! ### Path lemmas for `generateFull` -/

lemma generate_scoring_eq (sha256hex : String → String) (hexVal : String → ℕ)
    (parseJsonList : String → List String) (parseDate : String → Option Int)
    (recentCut : Int) (env : RunInput) (nbytes : ℕ) (t : Table)
    (hcred : pyTruthyStr env.drive_file_id = true ∧
      pyTruthyStr env.drive_access_token = true ∧ pyTruthyStr env.wallet_signature = true)
    (hfetch : env.fetch = Except.ok (nbytes, t))
    (hsize : ¬(t.rows.length < 1 ∨ t.columns.length < 3))
    (hrec : is_view (headerSet t) = true ∨ is_bill (headerSet t) = true) :
    generateFull sha256hex hexVal parseJsonList parseDate recentCut env =
      finalDecision env.dlp_id (pyTruthyStr env.owner_address) (guardErrors env)
        (some ("drive_file",
          driveFileStats sha256hex hexVal parseDate recentCut
            (parseJsonList env.row_hashes_json) (env.drive_file_id.getD (""))
            nbytes t (is_view (headerSet t)))) := by
  unfold generateFull
  rw [if_neg (not_not_intro hcred), hfetch]
  dsimp only
  rw [if_neg hsize, if_neg (not_not_intro hrec)]

lemma generate_unrecognised_eq (sha256hex : String → String) (hexVal : String → ℕ)
    (parseJsonList : String → List String) (parseDate : String → Option Int)
    (recentCut : Int) (env : RunInput) (nbytes : ℕ) (t : Table)
    (hcred : pyTruthyStr env.drive_file_id = true ∧
      pyTruthyStr env.drive_access_token = true ∧ pyTruthyStr env.wallet_signature = true)
    (hfetch : env.fetch = Except.ok (nbytes, t))
    (hsize : ¬(t.rows.length < 1 ∨ t.columns.length < 3))
    (hrec : ¬(is_view (headerSet t) = true ∨ is_bill (headerSet t) = true)) :
    generateFull sha256hex hexVal parseJsonList parseDate recentCut env =
      ({ dlp_id := env.dlp_id }, guardErrors env ++ ["UNRECOGNISED_CSV_STRUCTURE"]) := by
  unfold generateFull
  rw [if_neg (not_not_intro hcred), hfetch]
  dsimp only
  rw [if_neg hsize, if_pos hrec]

lemma finalDecision_score_eq (dlp : ℕ) (own : Bool) (errs0 : List String)
    (p : String × FileStats) :
    (finalDecision dlp own errs0 (some p)).1.score =
      p.2.quality * (6/10) + 1 * (3/10) + (if own then (1 : ℚ) else 0) * (1/10) := rfl

lemma finalDecision_quality_eq (dlp : ℕ) (own : Bool) (errs0 : List String)
    (p : String × FileStats) :
    (finalDecision dlp own errs0 (some p)).1.quality = p.2.quality := rfl

lemma finalDecision_gate (dlp : ℕ) (own : Bool) (errs0 : List String)
    (fs : Option (String × FileStats)) :
    ((finalDecision dlp own errs0 fs).1.score < PROOF_THRESHOLD →
      (finalDecision dlp own errs0 fs).1.valid = false ∧
        "SCORE_BELOW_THRESHOLD" ∈ (finalDecision dlp own errs0 fs).2) ∧
    (PROOF_THRESHOLD ≤ (finalDecision dlp own errs0 fs).1.score ∧
        (finalDecision dlp own errs0 fs).2 = [] →
      (finalDecision dlp own errs0 fs).1.valid = true) := by
  unfold finalDecision
  dsimp only
  set q := (match fs with | some p => p.2.quality | none => (0 : ℚ)) with hq
  set e1 := (if fs.isNone then errs0 ++ ["NO_VALID_CSV_FILES"] else errs0) with he1
  by_cases hg : q * (6/10) + 1 * (3/10) + (if own then (1 : ℚ) else 0) * (1/10) <
      PROOF_THRESHOLD
  · rw [if_pos hg, if_pos hg]
    refine ⟨fun _ => ⟨rfl, ?_⟩, fun hc => ?_⟩
    · simp
    · exact absurd hg (not_lt.mpr hc.1)
  · rw [if_neg hg, if_neg hg]
    refine ⟨fun hlt => absurd hlt hg, fun hc => ?_⟩
    rw [hc.2]
    rfl

lemma driveFileStats_quality_bounds (sha256hex : String → String) (hexVal : String → ℕ)
    (parseDate : String → Option Int) (recentCut : Int) (client_hashes : List String)
    (fid : String) (nbytes : ℕ) (t : Table) (isV : Bool) :
    0 ≤ (driveFileStats sha256hex hexVal parseDate recentCut client_hashes fid nbytes t
        isV).quality ∧
      (driveFileStats sha256hex hexVal parseDate recentCut client_hashes fid nbytes t
        isV).quality ≤ 1 := by
  have hd := detect_new_rows_bounds (fun str => hexVal (sha256hex str))
    (t.rows.map fun r => hash_csv_row sha256hex (rowString r))
    (BloomFilter.init 1000000 (1/100))
  have h := fileQuality_bounds parseDate recentCut isV t
    (detect_new_rows (fun str => hexVal (sha256hex str))
      (t.rows.map fun r => hash_csv_row sha256hex (rowString r))
      (BloomFilter.init 1000000 (1/100))).uniqueness_ratio
    (detect_new_rows (fun str => hexVal (sha256hex str))
      (t.rows.map fun r => hash_csv_row sha256hex (rowString r))
      (BloomFilter.init 1000000 (1/100))).new_rows hd.2.1
  exact h

/-- C4: for every scored file the quality equals
`round(min(non_null_ratio*0.6 + volume_bonus + recency_bonus +
uniqueness_bonus, 1.0), 3)`, the 1.0 cap being applied to the sum of the
components (not per component), and consequently 0 ≤ quality ≤ 1 however
large the bonuses sum. -/

theorem quality_capped_formula (sha256hex : String → String) (hexVal : String → ℕ)
    (parseDate : String → Option Int) (recentCut : Int) (client_hashes : List String)
    (fid : String) (nbytes : ℕ) (t : Table) (isV : Bool) :
    (driveFileStats sha256hex hexVal parseDate recentCut client_hashes fid nbytes t
        isV).quality =
      round3 (min (nonNullRatio t * (6/10)
        + min (((detect_new_rows (fun str => hexVal (sha256hex str))
            (t.rows.map fun r => hash_csv_row sha256hex (rowString r))
            (BloomFilter.init 1000000 (1/100))).new_rows : ℚ) / 10000) (1/2)
        + recencyBonus parseDate recentCut isV t
        + (detect_new_rows (fun str => hexVal (sha256hex str))
            (t.rows.map fun r => hash_csv_row sha256hex (rowString r))
            (BloomFilter.init 1000000 (1/100))).uniqueness_ratio * (3/10)) 1) ∧
    0 ≤ (driveFileStats sha256hex hexVal parseDate recentCut client_hashes fid nbytes t
        isV).quality ∧
      (driveFileStats sha256hex hexVal parseDate recentCut client_hashes fid nbytes t
        isV).quality ≤ 1 := by
  refine ⟨rfl, ?_, ?_⟩
  · exact (driveFileStats_quality_bounds sha256hex hexVal parseDate recentCut client_hashes
      fid nbytes t isV).1
  · exact (driveFileStats_quality_bounds sha256hex hexVal parseDate recentCut client_hashes
      fid nbytes t isV).2

/-- C1: for every run that reaches the final decision (credentials present,
fetch succeeded, table large enough, structure recognised), a composite
score below 0.5 forces valid = false with SCORE_BELOW_THRESHOLD in the error
list, and a score of at least 0.5 with an otherwise empty error list yields
valid = true. -/

theorem threshold_gate_behaviour (sha256hex : String → String) (hexVal : String → ℕ)
    (parseJsonList : String → List String) (parseDate : String → Option Int)
    (recentCut : Int) (env : RunInput) (nbytes : ℕ) (t : Table)
    (hcred : pyTruthyStr env.drive_file_id = true ∧
      pyTruthyStr env.drive_access_token = true ∧ pyTruthyStr env.wallet_signature = true)
    (hfetch : env.fetch = Except.ok (nbytes, t))
    (hsize : ¬(t.rows.length < 1 ∨ t.columns.length < 3))
    (hrec : is_view (headerSet t) = true ∨ is_bill (headerSet t) = true) :
    ((generateFull sha256hex hexVal parseJsonList parseDate recentCut env).1.score <
        PROOF_THRESHOLD →
      (generateFull sha256hex hexVal parseJsonList parseDate recentCut env).1.valid = false ∧
        "SCORE_BELOW_THRESHOLD" ∈
          (generateFull sha256hex hexVal parseJsonList parseDate recentCut env).2) ∧
    (PROOF_THRESHOLD ≤
        (generateFull sha256hex hexVal parseJsonList parseDate recentCut env).1.score ∧
        (generateFull sha256hex hexVal parseJsonList parseDate recentCut env).2 = [] →
      (generateFull sha256hex hexVal parseJsonList parseDate recentCut env).1.valid = true) := by
  rw [generate_scoring_eq sha256hex hexVal parseJsonList parseDate recentCut env nbytes t
    hcred hfetch hsize hrec]
  exact finalDecision_gate _ _ _ _

/-- Closed witness for `threshold_gate_behaviour` at a concrete healthy run. -/

theorem threshold_gate_behaviour_witness :
    (pyTruthyStr envOk.drive_file_id = true ∧ pyTruthyStr envOk.drive_access_token = true ∧
      pyTruthyStr envOk.wallet_signature = true) ∧
    envOk.fetch = Except.ok (100, tableV) ∧
    ¬(tableV.rows.length < 1 ∨ tableV.columns.length < 3) ∧
    (is_view (headerSet tableV) = true ∨ is_bill (headerSet tableV) = true) ∧
    (((generateFull sha0 hex0 pj0 pdate0 0 envOk).1.score < PROOF_THRESHOLD →
        (generateFull sha0 hex0 pj0 pdate0 0 envOk).1.valid = false ∧
          "SCORE_BELOW_THRESHOLD" ∈ (generateFull sha0 hex0 pj0 pdate0 0 envOk).2) ∧
      (PROOF_THRESHOLD ≤ (generateFull sha0 hex0 pj0 pdate0 0 envOk).1.score ∧
          (generateFull sha0 hex0 pj0 pdate0 0 envOk).2 = [] →
        (generateFull sha0 hex0 pj0 pdate0 0 envOk).1.valid = true)) :=
  ⟨⟨by decide, by decide, by decide⟩, rfl, by decide, Or.inl ((is_view_iff_card (headerSet tableV)).mpr (by decide)),
    threshold_gate_behaviour sha0 hex0 pj0 pdate0 0 envOk 100 tableV
      ⟨by decide, by decide, by decide⟩ rfl (by decide) (Or.inl ((is_view_iff_card (headerSet tableV)).mpr (by decide)))⟩

/-- C5: for every run reaching the final decision the composite score is
quality*0.6 + uniqueness*0.3 + ownership*0.1, where the aggregate uniqueness
is the constant 1.0 and ownership is 1.0 exactly when an owner address was
supplied (else 0.0); the resulting score lies in [0, 1]. -/

theorem composite_score_formula (sha256hex : String → String) (hexVal : String → ℕ)
    (parseJsonList : String → List String) (parseDate : String → Option Int)
    (recentCut : Int) (env : RunInput) (nbytes : ℕ) (t : Table)
    (hcred : pyTruthyStr env.drive_file_id = true ∧
      pyTruthyStr env.drive_access_token = true ∧ pyTruthyStr env.wallet_signature = true)
    (hfetch : env.fetch = Except.ok (nbytes, t))
    (hsize : ¬(t.rows.length < 1 ∨ t.columns.length < 3))
    (hrec : is_view (headerSet t) = true ∨ is_bill (headerSet t) = true) :
    ((generateFull sha256hex hexVal parseJsonList parseDate recentCut env).1.score =
      (generateFull sha256hex hexVal parseJsonList parseDate recentCut env).1.quality * (6/10)
        + (1 : ℚ) * (3/10)
        + (generateFull sha256hex hexVal parseJsonList parseDate recentCut env).1.ownership
            * (1/10)) ∧
    (generateFull sha256hex hexVal parseJsonList parseDate recentCut env).1.uniqueness = 1 ∧
    (generateFull sha256hex hexVal parseJsonList parseDate recentCut env).1.ownership =
      (if pyTruthyStr env.owner_address = true then (1 : ℚ) else 0) ∧
    0 ≤ (generateFull sha256hex hexVal parseJsonList parseDate recentCut env).1.score ∧
    (generateFull sha256hex hexVal parseJsonList parseDate recentCut env).1.score ≤ 1 := by
  rw [generate_scoring_eq sha256hex hexVal parseJsonList parseDate recentCut env nbytes t
    hcred hfetch hsize hrec]
  have hq := driveFileStats_quality_bounds sha256hex hexVal parseDate recentCut
    (parseJsonList env.row_hashes_json) (env.drive_file_id.getD ("")) nbytes t
    (is_view (headerSet t))
  refine ⟨rfl, rfl, rfl, ?_, ?_⟩
  · rw [finalDecision_score_eq]
    by_cases ho : pyTruthyStr env.owner_address = true
    · rw [if_pos ho]
      linarith [hq.1]
    · rw [if_neg ho]
      linarith [hq.1]
  · rw [finalDecision_score_eq]
    by_cases ho : pyTruthyStr env.owner_address = true
    · rw [if_pos ho]
      linarith [hq.2]
    · rw [if_neg ho]
      linarith [hq.2]

/-- Closed witness for `composite_score_formula` at a concrete healthy run. -/

theorem composite_score_formula_witness :
    (pyTruthyStr envOk.drive_file_id = true ∧ pyTruthyStr envOk.drive_access_token = true ∧
      pyTruthyStr envOk.wallet_signature = true) ∧
    envOk.fetch = Except.ok (100, tableV) ∧
    ¬(tableV.rows.length < 1 ∨ tableV.columns.length < 3) ∧
    (is_view (headerSet tableV) = true ∨ is_bill (headerSet tableV) = true) ∧
    (((generateFull sha0 hex0 pj0 pdate0 0 envOk).1.score =
      (generateFull sha0 hex0 pj0 pdate0 0 envOk).1.quality * (6/10) + (1 : ℚ) * (3/10)
        + (generateFull sha0 hex0 pj0 pdate0 0 envOk).1.ownership * (1/10)) ∧
    (generateFull sha0 hex0 pj0 pdate0 0 envOk).1.uniqueness = 1 ∧
    (generateFull sha0 hex0 pj0 pdate0 0 envOk).1.ownership =
      (if pyTruthyStr envOk.owner_address = true then (1 : ℚ) else 0) ∧
    0 ≤ (generateFull sha0 hex0 pj0 pdate0 0 envOk).1.score ∧
    (generateFull sha0 hex0 pj0 pdate0 0 envOk).1.score ≤ 1) :=
  ⟨⟨by decide, by decide, by decide⟩, rfl, by decide, Or.inl ((is_view_iff_card (headerSet tableV)).mpr (by decide)),
    composite_score_formula sha0 hex0 pj0 pdate0 0 envOk 100 tableV
      ⟨by decide, by decide, by decide⟩ rfl (by decide) (Or.inl ((is_view_iff_card (headerSet tableV)).mpr (by decide)))⟩

/-- C3 amended: for every run that reaches the final decision the result's
attributes carry the full ordered error list (possibly empty when valid is
true); on early-abort failure paths, however, the attributes payload is
absent (see the counterexample), so the guarantee holds only for runs
reaching the final decision. -/

theorem errors_listed_in_attributes (sha256hex : String → String) (hexVal : String → ℕ)
    (parseJsonList : String → List String) (parseDate : String → Option Int)
    (recentCut : Int) (env : RunInput) (nbytes : ℕ) (t : Table)
    (hcred : pyTruthyStr env.drive_file_id = true ∧
      pyTruthyStr env.drive_access_token = true ∧ pyTruthyStr env.wallet_signature = true)
    (hfetch : env.fetch = Except.ok (nbytes, t))
    (hsize : ¬(t.rows.length < 1 ∨ t.columns.length < 3))
    (hrec : is_view (headerSet t) = true ∨ is_bill (headerSet t) = true) :
    Option.map Attributes.errors
        (generateFull sha256hex hexVal parseJsonList parseDate recentCut env).1.attributes =
      some ((generateFull sha256hex hexVal parseJsonList parseDate recentCut env).2) := by
  rw [generate_scoring_eq sha256hex hexVal parseJsonList parseDate recentCut env nbytes t
    hcred hfetch hsize hrec]
  rfl

/-- Closed witness for `errors_listed_in_attributes` at a concrete run. -/

theorem errors_listed_in_attributes_witness :
    (pyTruthyStr envOk.drive_file_id = true ∧ pyTruthyStr envOk.drive_access_token = true ∧
      pyTruthyStr envOk.wallet_signature = true) ∧
    envOk.fetch = Except.ok (100, tableV) ∧
    ¬(tableV.rows.length < 1 ∨ tableV.columns.length < 3) ∧
    (is_view (headerSet tableV) = true ∨ is_bill (headerSet tableV) = true) ∧
    Option.map Attributes.errors
        (generateFull sha0 hex0 pj0 pdate0 0 envOk).1.attributes =
      some ((generateFull sha0 hex0 pj0 pdate0 0 envOk).2) :=
  ⟨⟨by decide, by decide, by decide⟩, rfl, by decide,
    Or.inl ((is_view_iff_card (headerSet tableV)).mpr (by decide)),
    errors_listed_in_attributes sha0 hex0 pj0 pdate0 0 envOk 100 tableV
      ⟨by decide, by decide, by decide⟩ rfl (by decide)
      (Or.inl ((is_view_iff_card (headerSet tableV)).mpr (by decide)))⟩

/-- C3 counterexample: the missing-credentials failure path records
MISSING_DRIVE_CREDENTIALS in the internal error list yet returns a result
with no attributes payload at all, so on this failure path the error list is
not present in the result's attributes. -/

theorem errors_listed_in_attributes_counterexample :
    (generateFull sha0 hex0 pj0 pdate0 0 envNoCred).1.attributes = none ∧
    (generateFull sha0 hex0 pj0 pdate0 0 envNoCred).2 = ["MISSING_DRIVE_CREDENTIALS"] :=
  ⟨rfl, rfl⟩

/-- C2 amended: when the single table's header set qualifies as neither
viewing nor billing, generate appends UNRECOGNISED_CSV_STRUCTURE after any
earlier errors and returns immediately: valid stays false, no attributes
payload is produced, and nothing further runs.  The error aborts the run;
a run holds only this one Drive file, so there are no other files to
continue with and no aggregated result. -/

theorem unrecognised_structure_aborts (sha256hex : String → String) (hexVal : String → ℕ)
    (parseJsonList : String → List String) (parseDate : String → Option Int)
    (recentCut : Int) (env : RunInput) (nbytes : ℕ) (t : Table)
    (hcred : pyTruthyStr env.drive_file_id = true ∧
      pyTruthyStr env.drive_access_token = true ∧ pyTruthyStr env.wallet_signature = true)
    (hfetch : env.fetch = Except.ok (nbytes, t))
    (hsize : ¬(t.rows.length < 1 ∨ t.columns.length < 3))
    (hrec : ¬(is_view (headerSet t) = true ∨ is_bill (headerSet t) = true)) :
    (generateFull sha256hex hexVal parseJsonList parseDate recentCut env).2 =
      guardErrors env ++ ["UNRECOGNISED_CSV_STRUCTURE"] ∧
    (generateFull sha256hex hexVal parseJsonList parseDate recentCut env).1.attributes =
      none ∧
    (generateFull sha256hex hexVal parseJsonList parseDate recentCut env).1.valid = false := by
  rw [generate_unrecognised_eq sha256hex hexVal parseJsonList parseDate recentCut env nbytes t
    hcred hfetch hsize hrec]
  exact ⟨rfl, rfl, rfl⟩

/-- Closed witness for `unrecognised_structure_aborts` at a concrete run. -/

theorem unrecognised_structure_aborts_witness :
    (pyTruthyStr envU.drive_file_id = true ∧ pyTruthyStr envU.drive_access_token = true ∧
      pyTruthyStr envU.wallet_signature = true) ∧
    envU.fetch = Except.ok (100, tableU) ∧
    ¬(tableU.rows.length < 1 ∨ tableU.columns.length < 3) ∧
    ¬(is_view (headerSet tableU) = true ∨ is_bill (headerSet tableU) = true) ∧
    ((generateFull sha0 hex0 pj0 pdate0 0 envU).2 =
        guardErrors envU ++ ["UNRECOGNISED_CSV_STRUCTURE"] ∧
      (generateFull sha0 hex0 pj0 pdate0 0 envU).1.attributes = none ∧
      (generateFull sha0 hex0 pj0 pdate0 0 envU).1.valid = false) := by
  have hrecU : ¬(is_view (headerSet tableU) = true ∨ is_bill (headerSet tableU) = true) := by
    intro h
    rcases h with h | h
    · rw [is_view_iff_card] at h
      revert h
      decide
    · rw [is_bill_iff_card] at h
      revert h
      decide
  exact ⟨⟨by decide, by decide, by decide⟩, rfl, by decide, hrecU,
    unrecognised_structure_aborts sha0 hex0 pj0 pdate0 0 envU 100 tableU
      ⟨by decide, by decide, by decide⟩ rfl (by decide) hrecU⟩

/-- C2 counterexample: on a concrete run whose single table is unrecognised,
the final error list is exactly [UNRECOGNISED_CSV_STRUCTURE] and the
attributes payload is absent: the run was aborted instead of continuing to
produce the aggregated result (an aggregated result always carries an
attributes payload). -/

theorem unrecognised_counterexample :
    (generateFull sha0 hex0 pj0 pdate0 0 envU).2 = ["UNRECOGNISED_CSV_STRUCTURE"] ∧
    (generateFull sha0 hex0 pj0 pdate0 0 envU).1.attributes = none := by
  have hrecU : ¬(is_view (headerSet tableU) = true ∨ is_bill (headerSet tableU) = true) := by
    intro h
    rcases h with h | h
    · rw [is_view_iff_card] at h
      revert h
      decide
    · rw [is_bill_iff_card] at h
      revert h
      decide
  rw [generate_unrecognised_eq sha0 hex0 pj0 pdate0 0 envU 100 tableU
    ⟨by decide, by decide, by decide⟩ rfl (by decide) hrecU]
  exact ⟨rfl, rfl⟩

/-- C9 amended: the aggregation branch does implement the claimed behaviour
whenever it is reached with no scored file: NO_VALID_CSV_FILES is appended,
quality is 0.0, the composite score equals 0.3 + ownership*0.1, which is
below 0.5, and valid = false.  No generate path, however, reaches the
aggregation with an empty stats map: a run whose only table fails
classification returns earlier with UNRECOGNISED_CSV_STRUCTURE (see the
counterexample). -/

theorem empty_stats_aggregation (dlp : ℕ) (own : Bool) (errs0 : List String) :
    "NO_VALID_CSV_FILES" ∈ (finalDecision dlp own errs0 none).2 ∧
    (finalDecision dlp own errs0 none).1.quality = 0 ∧
    (finalDecision dlp own errs0 none).1.score =
      3/10 + (if own then (1 : ℚ) else 0) * (1/10) ∧
    (finalDecision dlp own errs0 none).1.score < PROOF_THRESHOLD ∧
    (finalDecision dlp own errs0 none).1.valid = false := by
  have hlt : (0 : ℚ) * (6/10) + 1 * (3/10) + (if own then (1 : ℚ) else 0) * (1/10) <
      PROOF_THRESHOLD := by
    cases own <;> norm_num [PROOF_THRESHOLD]
  have hkey : finalDecision dlp own errs0 none =
      ({ dlp_id := dlp
         valid := false
         quality := 0
         uniqueness := 1
         ownership := if own then (1 : ℚ) else 0
         score := 0 * (6/10) + 1 * (3/10) + (if own then (1 : ℚ) else 0) * (1/10)
         attributes := some
           { files := [],
             errors := (errs0 ++ ["NO_VALID_CSV_FILES"]) ++ ["SCORE_BELOW_THRESHOLD"] }
         metadata := some ("netflix-csv") },
       (errs0 ++ ["NO_VALID_CSV_FILES"]) ++ ["SCORE_BELOW_THRESHOLD"]) := by
    unfold finalDecision
    dsimp only [Option.isNone]
    rw [if_pos rfl, if_pos hlt, if_pos hlt]
  rw [hkey]
  refine ⟨by simp, rfl, by ring, hlt, rfl⟩

/-- C9 counterexample: a run whose single table qualifies as nothing (the
no-qualifying-table scenario) never receives NO_VALID_CSV_FILES: it aborts
earlier, with UNRECOGNISED_CSV_STRUCTURE as its only error. -/

theorem no_valid_csv_counterexample :
    "NO_VALID_CSV_FILES" ∉ (generateFull sha0 hex0 pj0 pdate0 0 envU9).2 ∧
    (generateFull sha0 hex0 pj0 pdate0 0 envU9).2 = ["UNRECOGNISED_CSV_STRUCTURE"] := by
  have hrecU : ¬(is_view (headerSet tableU) = true ∨ is_bill (headerSet tableU) = true) := by
    intro h
    rcases h with h | h
    · rw [is_view_iff_card] at h
      revert h
      decide
    · rw [is_bill_iff_card] at h
      revert h
      decide
  rw [generate_unrecognised_eq sha0 hex0 pj0 pdate0 0 envU9 50 tableU
    ⟨by decide, by decide, by decide⟩ rfl (by decide) hrecU]
  exact ⟨by decide, rfl⟩

lemma finalDecision_mismatch_congr (dlp : ℕ) (own : Bool) (errs0 : List String)
    (k : String) (s1 s2 : FileStats)
    (hq : s1.quality = s2.quality) (he : eraseMismatch s1 = eraseMismatch s2) :
    ((finalDecision dlp own errs0 (some (k, s1))).1.valid =
      (finalDecision dlp own errs0 (some (k, s2))).1.valid) ∧
    ((finalDecision dlp own errs0 (some (k, s1))).1.quality =
      (finalDecision dlp own errs0 (some (k, s2))).1.quality) ∧
    ((finalDecision dlp own errs0 (some (k, s1))).1.score =
      (finalDecision dlp own errs0 (some (k, s2))).1.score) ∧
    ((finalDecision dlp own errs0 (some (k, s1))).2 =
      (finalDecision dlp own errs0 (some (k, s2))).2) ∧
    (Option.map eraseMismatchAttrs
        (finalDecision dlp own errs0 (some (k, s1))).1.attributes =
      Option.map eraseMismatchAttrs
        (finalDecision dlp own errs0 (some (k, s2))).1.attributes) := by
  unfold finalDecision
  dsimp only
  rw [hq]
  refine ⟨rfl, rfl, rfl, rfl, ?_⟩
  simp [eraseMismatchAttrs, he]

/-- C10: the client-supplied ROW_HASHES_JSON value never influences the
verdict: two runs identical except for that value (malformed JSON included,
since the json parsing stage is an arbitrary function into lists) produce
the same valid flag, quality, score and error list, and their attributes
agree once the per-file hash_mismatch entry is disregarded — only that entry
may differ. -/

theorem row_hashes_no_influence (sha256hex : String → String) (hexVal : String → ℕ)
    (parseJsonList : String → List String) (parseDate : String → Option Int)
    (recentCut : Int) (env : RunInput) (r2 : String) :
    ((generateFull sha256hex hexVal parseJsonList parseDate recentCut env).1.valid =
      (generateFull sha256hex hexVal parseJsonList parseDate recentCut
        { env with row_hashes_json := r2 }).1.valid) ∧
    ((generateFull sha256hex hexVal parseJsonList parseDate recentCut env).1.quality =
      (generateFull sha256hex hexVal parseJsonList parseDate recentCut
        { env with row_hashes_json := r2 }).1.quality) ∧
    ((generateFull sha256hex hexVal parseJsonList parseDate recentCut env).1.score =
      (generateFull sha256hex hexVal parseJsonList parseDate recentCut
        { env with row_hashes_json := r2 }).1.score) ∧
    ((generateFull sha256hex hexVal parseJsonList parseDate recentCut env).2 =
      (generateFull sha256hex hexVal parseJsonList parseDate recentCut
        { env with row_hashes_json := r2 }).2) ∧
    (Option.map eraseMismatchAttrs
        (generateFull sha256hex hexVal parseJsonList parseDate recentCut
          env).1.attributes =
      Option.map eraseMismatchAttrs
        (generateFull sha256hex hexVal parseJsonList parseDate recentCut
          { env with row_hashes_json := r2 }).1.attributes) := by
  unfold generateFull
  dsimp only [guardErrors]
  by_cases hcred : (pyTruthyStr env.drive_file_id = true ∧
      pyTruthyStr env.drive_access_token = true ∧ pyTruthyStr env.wallet_signature = true)
  · simp only [if_neg (not_not_intro hcred)]
    cases hf : env.fetch with
    | error e => exact ⟨rfl, rfl, rfl, rfl, rfl⟩
    | ok p =>
        obtain ⟨nb, t⟩ := p
        dsimp only
        by_cases hsz : (t.rows.length < 1 ∨ t.columns.length < 3)
        · simp only [if_pos hsz]
          exact ⟨trivial, trivial, trivial, trivial, trivial⟩
        · simp only [if_neg hsz]
          by_cases hcl : (is_view (headerSet t) = true ∨ is_bill (headerSet t) = true)
          · simp only [if_neg (not_not_intro hcl)]
            exact finalDecision_mismatch_congr _ _ _ _ _ _ rfl rfl
          · simp only [if_pos hcl]
            exact ⟨trivial, trivial, trivial, trivial, trivial⟩
  · simp only [if_pos hcred]
    exact ⟨trivial, trivial, trivial, trivial, trivial⟩

end FlixProof
